import Mathlib

/-
Verification of the keyglide-cli session actor (src/backend/src/app/message.rs)
and the editor-process manager (src/client/src/schema/editor.rs).

The session actor of `handle_app_message` is embedded shallowly: identities and
outbound-channel handles become natural numbers, the client registry and each
lobby's player mapping become association lists with unique keys (mirroring the
Rust HashMaps), and the actor loop becomes a fuel-indexed function over the
command queue.  A set of "closed" channel ids models recipients whose outbound
channel's far end has been torn down: sending to such a channel fails, and the
`?` operator in the Rust source propagates that failure out of
`handle_app_message`, which the embedding records as an `ok = false` result
aborting the loop.
-/

namespace KeyGlide

/-- A player: identity, display name, and outbound-channel handle
(channels are modelled by their id). -/
structure Player where
  id : Nat
  name : String
  tx : Nat
deriving DecidableEq, Repr

/-- A lobby: identity, display name, player mapping (player id to player), and
capacity limit.  The player mapping is an association list with unique keys,
mirroring the Rust HashMap. -/
structure Lobby where
  id : Nat
  name : String
  players : List (Nat × Player)
  capacity : Nat
deriving DecidableEq, Repr

/-- The notification kinds pushed onto outbound channels
(`common::BackendMessage`). -/
inductive BackendMessage where
  | lobbyFull
  | currentLobbies (lobbies : List (String × Nat))
  | connectionCounts (clients : Nat) (players : Nat)
  | chatMessage (senderId : Nat) (senderName : String) (text : String)
  | currentPlayers (roster : List String)
  | playerJoined (playerId : Nat) (name : String)
  | playerLeft (playerId : Nat) (name : String)
  | lobbyInformation (name : String) (playerCount : Nat)
deriving DecidableEq, Repr

/-- The command set of the session actor (`AppMessage` in message.rs). -/
inductive AppMessage where
  | currentPlayers (lobbyId : Nat) (player : Player)
  | createLobbyAndAddPlayer (player : Player)
  | addPlayerViaQuickplay (player : Player)
  | addPlayerToLobby (lobbyId : Nat) (player : Player)
  | sendMessage (player : Player) (text : String)
  | removePlayer (player : Player)
  | lobbyFull (playerTx : Nat)
  | currentLobbies (clientId : Nat)
  | sendLobbyInformation (lobbyId : Nat)
  | removeLobby (lobbyId : Nat)
  | sendConnectionCounts
  | addClient (clientId : Nat) (clientTx : Nat)
  | removeClient (clientId : Nat)
deriving DecidableEq, Repr

/-- The actor's owned state (`App`): the client registry (client id to
outbound-channel handle) and the lobby registry (lobby id to lobby). -/
structure App where
  clients : List (Nat × Nat)
  lobbies : List (Nat × Lobby)
deriving DecidableEq, Repr

/-- Lookup in an association list (HashMap get). -/
def lookupA {α : Type} (k : Nat) : List (Nat × α) → Option α
  | [] => none
  | (k', v) :: rest => if k = k' then some v else lookupA k rest

/-- Key membership in an association list (HashMap contains_key). -/
def containsA {α : Type} (k : Nat) (l : List (Nat × α)) : Bool :=
  (lookupA k l).isSome

/-- Insertion into an association list: replaces the value stored under an
existing key, otherwise appends the new pair (HashMap insert). -/
def insertA {α : Type} (k : Nat) (v : α) : List (Nat × α) → List (Nat × α)
  | [] => [(k, v)]
  | (k', v') :: rest => if k = k' then (k, v) :: rest else (k', v') :: insertA k v rest

/-- Deletion from an association list (HashMap remove). -/
def removeA {α : Type} (k : Nat) : List (Nat × α) → List (Nat × α)
  | [] => []
  | (k', v') :: rest => if k = k' then rest else (k', v') :: removeA k rest

/-- Sending one notification to each channel in iteration order, mirroring a
Rust for-loop of `tx.send(msg)?`: a send to a closed channel fails and aborts
the loop there, while channels earlier in the iteration have already received
the message.  Returns the notifications actually enqueued and whether every
send succeeded. -/
def sendAll (closed : List Nat) (chans : List Nat) (msg : BackendMessage) :
    List (Nat × BackendMessage) × Bool :=
  match chans with
  | [] => ([], true)
  | c :: cs =>
    if c ∈ closed then ([], false)
    else
      let r := sendAll closed cs msg
      ((c, msg) :: r.1, r.2)

/-- The outbound-channel handles of a lobby's members, in mapping order. -/
def Lobby.memberChannels (lobby : Lobby) : List Nat :=
  lobby.players.map (fun p => p.2.tx)

/-- Modelled from the spec: `send_current_players` of the `Lobby`
implementation (not under src/) sends a roster snapshot only to the requesting
player's own channel. -/
def Lobby.sendCurrentPlayers (closed : List Nat) (lobby : Lobby) (player : Player) :
    List (Nat × BackendMessage) × Bool :=
  sendAll closed [player.tx]
    (BackendMessage.currentPlayers (lobby.players.map (fun p => p.2.name)))

/-- Modelled from the spec: `send_message` of the `Lobby` implementation (not
under src/) broadcasts a chat notification attributed to the player to every
member's channel, the sender included. -/
def Lobby.sendChatMessage (closed : List Nat) (lobby : Lobby) (player : Player)
    (text : String) : List (Nat × BackendMessage) × Bool :=
  sendAll closed (Lobby.memberChannels lobby)
    (BackendMessage.chatMessage player.id player.name text)

/-- Modelled from the spec: `add_player` of the `Lobby` implementation (not
under src/).  The capacity check precedes any mutation; at capacity the
attempting player is replied to with LobbyFull (through the LobbyFull command
carrying the player's channel) and nothing is mutated; otherwise the player is
inserted, a join notification is broadcast to the existing members, and a
discovery-update request (SendLobbyInformation) is emitted back onto the
session channel. -/
def Lobby.addPlayer (closed : List Nat) (lobby : Lobby) (player : Player) :
    Lobby × List AppMessage × List (Nat × BackendMessage) × Bool :=
  if lobby.capacity ≤ lobby.players.length then
    (lobby, [AppMessage.lobbyFull player.tx], [], true)
  else
    let r := sendAll closed (Lobby.memberChannels lobby)
      (BackendMessage.playerJoined player.id player.name)
    (⟨lobby.id, lobby.name, insertA player.id player lobby.players, lobby.capacity⟩,
      [AppMessage.sendLobbyInformation lobby.id], r.1, r.2)

/-- Modelled from the spec: `remove_player` of the `Lobby` implementation (not
under src/) removes the player from the mapping, broadcasts a leave
notification to the remaining members, and emits a RemoveLobby command when the
mapping becomes empty. -/
def Lobby.removePlayerImpl (closed : List Nat) (lobby : Lobby) (player : Player) :
    Lobby × List AppMessage × List (Nat × BackendMessage) × Bool :=
  let players' := removeA player.id lobby.players
  let lobby' : Lobby := ⟨lobby.id, lobby.name, players', lobby.capacity⟩
  let r := sendAll closed (Lobby.memberChannels lobby')
    (BackendMessage.playerLeft player.id player.name)
  (lobby', if players'.isEmpty then [AppMessage.removeLobby lobby.id] else [], r.1, r.2)

/-- Total player count: the sum over all lobbies of the size of that lobby's
player mapping (message.rs line 150). -/
def App.totalPlayers (app : App) : Nat :=
  (app.lobbies.map (fun e => e.2.players.length)).sum

/-- Modelled from the spec: `get_current_lobbies` of the `App` implementation
(not under src/) returns a snapshot list of lobby name and player count. -/
def App.getCurrentLobbies (app : App) : List (String × Nat) :=
  app.lobbies.map (fun e => (e.2.name, e.2.players.length))

/-- Modelled from the spec: `send_lobby_information` of the `App`
implementation (not under src/) broadcasts name and player count of one lobby
to every connected client; an unknown lobby is logged and ignored. -/
def App.sendLobbyInformationImpl (closed : List Nat) (app : App) (lobbyId : Nat) :
    List (Nat × BackendMessage) × List String × Bool :=
  match lookupA lobbyId app.lobbies with
  | some lobby =>
    let r := sendAll closed (app.clients.map (fun c => c.2))
      (BackendMessage.lobbyInformation lobby.name lobby.players.length)
    (r.1, [], r.2)
  | none => ([], ["Lobby with ID " ++ toString lobbyId ++ " was not found."], true)

/-- Modelled from the spec: `remove_lobby` of the `App` implementation (not
under src/) deletes the lobby entry. -/
def App.removeLobbyImpl (app : App) (lobbyId : Nat) : App :=
  ⟨app.clients, removeA lobbyId app.lobbies⟩

/-- A fresh lobby id, larger than every id in use. -/
def App.freshLobbyId (app : App) : Nat :=
  (app.lobbies.map (fun e => e.1)).foldr max 0 + 1

/-- Lobby capacity is configuration the spec leaves unspecified; fixed here. -/
def lobbyCapacity : Nat := 4

/-- Modelled from the spec: `add_player_to_new_lobby` of the `App`
implementation (not under src/) allocates a new lobby and admits the player
into it. -/
def App.addPlayerToNewLobby (closed : List Nat) (app : App) (player : Player) :
    App × List AppMessage × List (Nat × BackendMessage) × Bool :=
  let lid := App.freshLobbyId app
  let lobby : Lobby := ⟨lid, "Lobby " ++ toString lid, [], lobbyCapacity⟩
  let r := Lobby.addPlayer closed lobby player
  (⟨app.clients, insertA lid r.1 app.lobbies⟩, r.2.1, r.2.2.1, r.2.2.2)

/-- Modelled from the spec: `add_player_via_quickplay` of the `App`
implementation (not under src/) admits the player into the first lobby with
free capacity, else creates a new lobby. -/
def App.addPlayerViaQuickplayImpl (closed : List Nat) (app : App) (player : Player) :
    App × List AppMessage × List (Nat × BackendMessage) × Bool :=
  match app.lobbies.find? (fun e => decide (e.2.players.length < e.2.capacity)) with
  | some e =>
    let r := Lobby.addPlayer closed e.2 player
    (⟨app.clients, insertA e.1 r.1 app.lobbies⟩, r.2.1, r.2.2.1, r.2.2.2)
  | none => App.addPlayerToNewLobby closed app player

/-- The effects of dispatching one command in `handle_app_message`. -/
structure HandleResult where
  app : App
  enq : List AppMessage
  sent : List (Nat × BackendMessage)
  logs : List String
  ok : Bool
deriving DecidableEq, Repr

/-- One iteration of `handle_app_message`: dispatches a single `AppMessage`,
returning the updated app state, the commands self-enqueued onto the session
channel (in order), the notifications enqueued onto outbound channels, the log
lines, and whether processing succeeded.  `ok = false` models a send error
propagating through the `?` operator, which makes `handle_app_message` return
`Err` and so aborts the actor loop. -/
def handle (closed : List Nat) (app : App) : AppMessage → HandleResult
  | AppMessage.currentPlayers lobbyId player =>
    match lookupA lobbyId app.lobbies with
    | some lobby =>
      let r := Lobby.sendCurrentPlayers closed lobby player
      ⟨app, [], r.1, [], r.2⟩
    | none =>
      ⟨app, [], [], ["Lobby with ID " ++ toString lobbyId ++ " was not found."], true⟩
  | AppMessage.createLobbyAndAddPlayer player =>
    let r := App.addPlayerToNewLobby closed app player
    ⟨r.1, r.2.1, r.2.2.1, [], r.2.2.2⟩
  | AppMessage.addPlayerViaQuickplay player =>
    let r := App.addPlayerViaQuickplayImpl closed app player
    ⟨r.1, r.2.1, r.2.2.1, [], r.2.2.2⟩
  | AppMessage.addPlayerToLobby lobbyId player =>
    match lookupA lobbyId app.lobbies with
    | some lobby =>
      let r := Lobby.addPlayer closed lobby player
      ⟨⟨app.clients, insertA lobbyId r.1 app.lobbies⟩, r.2.1, r.2.2.1, [], r.2.2.2⟩
    | none =>
      ⟨app, [], [], ["Lobby with ID " ++ toString lobbyId ++ " was not found."], true⟩
  | AppMessage.sendMessage player text =>
    match app.lobbies.find? (fun e => containsA player.id e.2.players) with
    | some e =>
      let r := Lobby.sendChatMessage closed e.2 player text
      ⟨app, [], r.1, [], r.2⟩
    | none =>
      ⟨app, [], [],
        ["No lobby has player " ++ player.name ++
          ". Unable to send message to the rest of the lobby members."], true⟩
  | AppMessage.removePlayer player =>
    match app.lobbies.find? (fun e => containsA player.id e.2.players) with
    | some e =>
      let r := Lobby.removePlayerImpl closed e.2 player
      ⟨⟨app.clients, insertA e.1 r.1 app.lobbies⟩, r.2.1, r.2.2.1, [], r.2.2.2⟩
    | none =>
      ⟨app, [], [],
        ["No lobby has player " ++ player.name ++ ". Unable to delete the player."], true⟩
  | AppMessage.lobbyFull playerTx =>
    let r := sendAll closed [playerTx] BackendMessage.lobbyFull
    ⟨app, [], r.1, [], r.2⟩
  | AppMessage.currentLobbies clientId =>
    match lookupA clientId app.clients with
    | some clientTx =>
      let r := sendAll closed [clientTx]
        (BackendMessage.currentLobbies (App.getCurrentLobbies app))
      ⟨app, [], r.1, [], r.2⟩
    | none =>
      ⟨app, [], [], ["Client with ID " ++ toString clientId ++ " was not found."], true⟩
  | AppMessage.sendLobbyInformation lobbyId =>
    let r := App.sendLobbyInformationImpl closed app lobbyId
    ⟨app, [], r.1, r.2.1, r.2.2⟩
  | AppMessage.removeLobby lobbyId =>
    ⟨App.removeLobbyImpl app lobbyId, [], [], [], true⟩
  | AppMessage.sendConnectionCounts =>
    let r := sendAll closed (app.clients.map (fun c => c.2))
      (BackendMessage.connectionCounts app.clients.length (App.totalPlayers app))
    ⟨app, [], r.1, [], r.2⟩
  | AppMessage.addClient clientId clientTx =>
    let clients' := insertA clientId clientTx app.clients
    ⟨⟨clients', app.lobbies⟩, [AppMessage.sendConnectionCounts], [],
      ["Added client with ID " ++ toString clientId ++ ". Client count is " ++
        toString clients'.length ++ "."], true⟩
  | AppMessage.removeClient clientId =>
    let clients' := removeA clientId app.clients
    ⟨⟨clients', app.lobbies⟩, [AppMessage.sendConnectionCounts], [],
      ["Removed client with ID " ++ toString clientId ++ ". Client count is " ++
        toString clients'.length ++ "."], true⟩

/-- The actor loop of `handle_app_message`: repeatedly receives the front
command of the session-channel queue and dispatches it; commands the handler
self-enqueues go to the back of the same queue.  Fuel-indexed: `none` means out
of fuel; `some (true, app, sent, logs)` means the queue drained — the loop's
natural `Ok(())` shutdown; `some (false, app, sent, logs)` means a send failure
made the loop return `Err`, leaving the rest of the queue unprocessed. -/
def run (closed : List Nat) : Nat → App → List AppMessage →
    Option (Bool × App × List (Nat × BackendMessage) × List String)
  | 0, _, _ => none
  | _ + 1, app, [] => some (true, app, [], [])
  | fuel + 1, app, msg :: rest =>
    let r := handle closed app msg
    if r.ok then
      match run closed fuel r.app (rest ++ r.enq) with
      | none => none
      | some (b, a, s, l) => some (b, a, r.sent ++ s, r.logs ++ l)
    else some (false, r.app, r.sent, r.logs)

/-- The client counts carried by the ConnectionCounts notifications of a
delivery trace, in order. -/
def ccClientCounts (sent : List (Nat × BackendMessage)) : List Nat :=
  sent.filterMap (fun p =>
    match p.2 with
    | BackendMessage.connectionCounts c _ => some c
    | _ => none)

/-- The final client registry of a terminating run (empty if out of fuel). -/
def runClients (closed : List Nat) (fuel : Nat) (app : App) (q : List AppMessage) :
    List (Nat × Nat) :=
  match run closed fuel app q with
  | some r => r.2.1.clients
  | none => []

/-- The delivery trace of a terminating run (empty if out of fuel). -/
def runSent (closed : List Nat) (fuel : Nat) (app : App) (q : List AppMessage) :
    List (Nat × BackendMessage) :=
  match run closed fuel app q with
  | some r => r.2.2.1
  | none => []

/-- The control messages of the client's lobby layer relevant here
(`LobbyMessage` in the client crate). -/
inductive LobbyMessage where
  | editorTerminated
deriving DecidableEq, Repr

/-- The observable actions of the editor-process manager: sending a control
message to the owning lobby, or spawning an editor process. -/
inductive EditorAction where
  | sendLobby (msg : LobbyMessage)
  | spawnEditor
deriving DecidableEq, Repr

/-- The exit status of the editor child process; the manager ignores it, so any
value stands for any exit reason. -/
structure ExitStatus where
  code : Nat
deriving DecidableEq, Repr

/-- `Editor::handle_termination` (src/client/src/schema/editor.rs): waits for
the editor child process; a failure of the wait call itself propagates out
(`?`).  On process exit, for any status, it logs a warning and sends a single
EditorTerminated notification to the owning lobby's control channel.
`lobbyClosed` models the far end of the lobby channel having been dropped, in
which case the send fails and its error propagates.  Returns the actions
performed, the log lines, and whether the function returned Ok.  No branch
spawns a process: the manager performs no restart. -/
def handle_termination (lobbyClosed : Bool) (waitResult : Except String ExitStatus) :
    List EditorAction × List String × Bool :=
  match waitResult with
  | Except.error _ => ([], [], false)
  | Except.ok _ =>
    if lobbyClosed then ([], ["The editor process terminated."], false)
    else ([EditorAction.sendLobby LobbyMessage.editorTerminated],
      ["The editor process terminated."], true)

/-- Fixture: a player in lobby 5. -/
def playerTen : Player := ⟨10, "ten", 110⟩

/-- Fixture: a lobby holding one player. -/
def lobbyW : Lobby := ⟨5, "Alpha", [(10, playerTen)], 4⟩

/-- Fixture: an app with one connected client and one lobby. -/
def appW : App := ⟨[(7, 107)], [(5, lobbyW)]⟩

/-- Fixture: an app with two connected clients and no lobby. -/
def appTwo : App := ⟨[(1, 101), (2, 102)], []⟩

/-- Fixture: an app with one connected client and no lobby. -/
def appOne : App := ⟨[(1, 101)], []⟩

/-- Fixture: the command sequence of the ordering property. -/
def queueC3 : List AppMessage :=
  [AppMessage.addClient 1 101, AppMessage.addClient 2 102, AppMessage.removeClient 1]

/- ------------------------------------------------------------------ -/
/- Helper lemmas. -/

/-- Broadcasting over channels none of which is closed delivers one copy of
the notification to every channel, in iteration order, and succeeds. -/
theorem sendAll_all_open (closed : List Nat) (msg : BackendMessage) (chans : List Nat)
    (h : ∀ c ∈ chans, c ∉ closed) :
    sendAll closed chans msg = (chans.map (fun c => (c, msg)), true) := by
  induction chans with
  | nil => rfl
  | cons c cs ih =>
    have hc : c ∉ closed := h c (List.mem_cons_self c cs)
    have ihr := ih (fun x hx => h x (List.mem_cons_of_mem c hx))
    simp [sendAll, hc, ihr]

/-- With no closed channel at all, every broadcast succeeds. -/
theorem sendAll_nil_ok (chans : List Nat) (msg : BackendMessage) :
    (sendAll [] chans msg).2 = true := by
  rw [sendAll_all_open [] msg chans (by simp)]

/-- Inserting under an existing key leaves the registry size unchanged. -/
theorem insertA_length {α : Type} (k : Nat) (v : α) (l : List (Nat × α))
    (h : containsA k l = true) : (insertA k v l).length = l.length := by
  induction l with
  | nil => simp [containsA, lookupA] at h
  | cons p rest ih =>
    obtain ⟨k', v'⟩ := p
    by_cases hk : k = k'
    · simp [insertA, hk]
    · have h' : containsA k rest = true := by simpa [containsA, lookupA, hk] using h
      simp [insertA, hk, ih h']

/-- After insertion, lookup of the key finds the inserted value. -/
theorem lookupA_insertA {α : Type} (k : Nat) (v : α) (l : List (Nat × α)) :
    lookupA k (insertA k v l) = some v := by
  induction l with
  | nil => simp [insertA, lookupA]
  | cons p rest ih =>
    obtain ⟨k', v'⟩ := p
    by_cases hk : k = k'
    · simp [insertA, hk, lookupA]
    · simp [insertA, hk, lookupA, ih]

/-- Removing an absent key is a no-op. -/
theorem removeA_not_mem {α : Type} (k : Nat) (l : List (Nat × α))
    (h : containsA k l = false) : removeA k l = l := by
  induction l with
  | nil => rfl
  | cons p rest ih =>
    obtain ⟨k', v'⟩ := p
    by_cases hk : k = k'
    · simp [containsA, lookupA, hk] at h
    · have h' : containsA k rest = false := by simpa [containsA, lookupA, hk] using h
      simp [removeA, hk, ih h']

/-- A linear scan finds the unique element satisfying the predicate. -/
theorem find?_eq_of_unique {α : Type} (P : α → Bool) (l : List α) (a : α)
    (ha : a ∈ l) (hPa : P a = true)
    (huniq : ∀ b ∈ l, P b = true → b = a) :
    l.find? P = some a := by
  induction l with
  | nil => cases ha
  | cons x xs ih =>
    cases hPx : P x with
    | true =>
      have hx : x = a := huniq x (List.mem_cons_self x xs) hPx
      subst hx
      simp [List.find?, hPx]
    | false =>
      rcases List.mem_cons.mp ha with rfl | ha'
      · rw [hPa] at hPx; cases hPx
      · have ihr := ih ha' (fun b hb hPb => huniq b (List.mem_cons_of_mem x hb) hPb)
        simp [List.find?, hPx, ihr]

/-- With no closed channel, `Lobby.addPlayer` succeeds. -/
theorem addPlayer_nil_ok (lobby : Lobby) (player : Player) :
    (Lobby.addPlayer [] lobby player).2.2.2 = true := by
  by_cases h : lobby.capacity ≤ lobby.players.length
  · simp [Lobby.addPlayer, h]
  · simp [Lobby.addPlayer, h, sendAll_nil_ok]

/-- With no closed channel, `Lobby.removePlayerImpl` succeeds. -/
theorem removePlayerImpl_nil_ok (lobby : Lobby) (player : Player) :
    (Lobby.removePlayerImpl [] lobby player).2.2.2 = true := by
  simp [Lobby.removePlayerImpl, sendAll_nil_ok]

/-- With no closed channel, `App.addPlayerToNewLobby` succeeds. -/
theorem addPlayerToNewLobby_nil_ok (app : App) (player : Player) :
    (App.addPlayerToNewLobby [] app player).2.2.2 = true := by
  simp [App.addPlayerToNewLobby, addPlayer_nil_ok]

/-- With no closed channel, `App.addPlayerViaQuickplayImpl` succeeds. -/
theorem addPlayerViaQuickplayImpl_nil_ok (app : App) (player : Player) :
    (App.addPlayerViaQuickplayImpl [] app player).2.2.2 = true := by
  cases hfind : app.lobbies.find? (fun e => decide (e.2.players.length < e.2.capacity)) with
  | none => simp [App.addPlayerViaQuickplayImpl, hfind, addPlayerToNewLobby_nil_ok]
  | some e => simp [App.addPlayerViaQuickplayImpl, hfind, addPlayer_nil_ok]

/-- With no closed channel, `App.sendLobbyInformationImpl` succeeds. -/
theorem sendLobbyInformationImpl_nil_ok (app : App) (lobbyId : Nat) :
    (App.sendLobbyInformationImpl [] app lobbyId).2.2 = true := by
  cases hl : lookupA lobbyId app.lobbies with
  | none => simp [App.sendLobbyInformationImpl, hl]
  | some lobby => simp [App.sendLobbyInformationImpl, hl, sendAll_nil_ok]

/-- With no closed channel, dispatching any command succeeds: the only error
source in `handle_app_message` is a send to a closed outbound channel. -/
theorem handle_nil_ok (app : App) (msg : AppMessage) : (handle [] app msg).ok = true := by
  cases msg with
  | currentPlayers lobbyId player =>
    cases hl : lookupA lobbyId app.lobbies with
    | none => simp [handle, hl]
    | some lobby => simp [handle, hl, Lobby.sendCurrentPlayers, sendAll_nil_ok]
  | createLobbyAndAddPlayer player =>
    simp [handle, addPlayerToNewLobby_nil_ok]
  | addPlayerViaQuickplay player =>
    simp [handle, addPlayerViaQuickplayImpl_nil_ok]
  | addPlayerToLobby lobbyId player =>
    cases hl : lookupA lobbyId app.lobbies with
    | none => simp [handle, hl]
    | some lobby => simp [handle, hl, addPlayer_nil_ok]
  | sendMessage player text =>
    cases hf : app.lobbies.find? (fun e => containsA player.id e.2.players) with
    | none => simp [handle, hf]
    | some e => simp [handle, hf, Lobby.sendChatMessage, sendAll_nil_ok]
  | removePlayer player =>
    cases hf : app.lobbies.find? (fun e => containsA player.id e.2.players) with
    | none => simp [handle, hf]
    | some e => simp [handle, hf, removePlayerImpl_nil_ok]
  | lobbyFull playerTx => simp [handle, sendAll_nil_ok]
  | currentLobbies clientId =>
    cases hl : lookupA clientId app.clients with
    | none => simp [handle, hl]
    | some clientTx => simp [handle, hl, sendAll_nil_ok]
  | sendLobbyInformation lobbyId =>
    simp [handle, sendLobbyInformationImpl_nil_ok]
  | removeLobby lobbyId => simp [handle]
  | sendConnectionCounts => simp [handle, sendAll_nil_ok]
  | addClient clientId clientTx => simp [handle]
  | removeClient clientId => simp [handle]

/- ------------------------------------------------------------------ -/
/- Claim theorems. -/

/-- C1: the code contradicts the claim.  With client 1's outbound channel
(101) closed, processing SendConnectionCounts hits a send failure that the `?`
operator propagates: the handler reports an error (so `handle_app_message`
returns `Err` and the actor loop aborts), the remaining recipient (client 2,
channel 102) receives nothing from this broadcast, no RemoveClient command is
synthesized for the dead recipient, and the next queued command is never
processed. -/
theorem delivery_failure_aborts_loop :
    handle [101] appTwo AppMessage.sendConnectionCounts = ⟨appTwo, [], [], [], false⟩ ∧
    run [101] 5 appTwo [AppMessage.sendConnectionCounts, AppMessage.currentLobbies 2] =
      some (false, appTwo, [], []) :=
  ⟨rfl, rfl⟩

/-- C2: a command referencing an unknown lobby id (CurrentPlayers,
AddPlayerToLobby), an unknown client id (CurrentLobbies), or a player that is
in no lobby (SendMessage, RemovePlayer) is logged and dropped: the state is
returned unchanged, no notification is sent, no follow-up command is enqueued,
and the handler reports success, so the actor keeps processing the queue. -/
theorem unknown_reference_logged_and_dropped
    (closed : List Nat) (app : App) (lobbyId clientId : Nat) (player : Player)
    (text : String)
    (hlobby : lookupA lobbyId app.lobbies = none)
    (hclient : lookupA clientId app.clients = none)
    (hplayer : ∀ e ∈ app.lobbies, containsA player.id e.2.players = false) :
    handle closed app (AppMessage.currentPlayers lobbyId player) =
      ⟨app, [], [], ["Lobby with ID " ++ toString lobbyId ++ " was not found."], true⟩ ∧
    handle closed app (AppMessage.addPlayerToLobby lobbyId player) =
      ⟨app, [], [], ["Lobby with ID " ++ toString lobbyId ++ " was not found."], true⟩ ∧
    handle closed app (AppMessage.currentLobbies clientId) =
      ⟨app, [], [], ["Client with ID " ++ toString clientId ++ " was not found."], true⟩ ∧
    handle closed app (AppMessage.sendMessage player text) =
      ⟨app, [], [], ["No lobby has player " ++ player.name ++
        ". Unable to send message to the rest of the lobby members."], true⟩ ∧
    handle closed app (AppMessage.removePlayer player) =
      ⟨app, [], [], ["No lobby has player " ++ player.name ++
        ". Unable to delete the player."], true⟩ := by
  have hfind : app.lobbies.find? (fun e => containsA player.id e.2.players) = none :=
    List.find?_eq_none.mpr (fun e he => by simp [hplayer e he])
  refine ⟨?_, ?_, ?_, ?_, ?_⟩
  · simp [handle, hlobby]
  · simp [handle, hlobby]
  · simp [handle, hclient]
  · simp [handle, hfind]
  · simp [handle, hfind]

/-- C2 witness: a concrete app, an unknown lobby id 99, an unknown client id
88 and a player 42 who is in no lobby. -/
theorem unknown_reference_logged_and_dropped_witness :
    handle [] appW (AppMessage.currentPlayers 99 ⟨42, "w", 142⟩) =
      ⟨appW, [], [], ["Lobby with ID " ++ toString 99 ++ " was not found."], true⟩ ∧
    handle [] appW (AppMessage.addPlayerToLobby 99 ⟨42, "w", 142⟩) =
      ⟨appW, [], [], ["Lobby with ID " ++ toString 99 ++ " was not found."], true⟩ ∧
    handle [] appW (AppMessage.currentLobbies 88) =
      ⟨appW, [], [], ["Client with ID " ++ toString 88 ++ " was not found."], true⟩ ∧
    handle [] appW (AppMessage.sendMessage ⟨42, "w", 142⟩ "hi") =
      ⟨appW, [], [], ["No lobby has player " ++ "w" ++
        ". Unable to send message to the rest of the lobby members."], true⟩ ∧
    handle [] appW (AppMessage.removePlayer ⟨42, "w", 142⟩) =
      ⟨appW, [], [], ["No lobby has player " ++ "w" ++
        ". Unable to delete the player."], true⟩ :=
  unknown_reference_logged_and_dropped [] appW 99 88 ⟨42, "w", 142⟩ "hi"
    (by decide) (by decide) (by decide)

/-- C3 counterexample: enqueuing [AddClient(1,101), AddClient(2,102),
RemoveClient(1)] on an empty app and draining the queue, with the
self-enqueued SendConnectionCounts commands processed in FIFO order (from the
back of the queue), yields the claimed final registry {2} and exactly three
ConnectionCounts broadcasts — but their observed client counts are 1, 1, 1,
not 1, 2, 1 as claimed: each broadcast runs only after all three mutations
have already committed. -/
theorem ordering_counts_counterexample :
    runClients [] 10 ⟨[], []⟩ queueC3 = [(2, 102)] ∧
    runSent [] 10 ⟨[], []⟩ queueC3 =
      [(102, BackendMessage.connectionCounts 1 0), (102, BackendMessage.connectionCounts 1 0),
        (102, BackendMessage.connectionCounts 1 0)] ∧
    ccClientCounts (runSent [] 10 ⟨[], []⟩ queueC3) = [1, 1, 1] ∧
    ccClientCounts (runSent [] 10 ⟨[], []⟩ queueC3) ≠ [1, 2, 1] := by
  refine ⟨rfl, rfl, rfl, ?_⟩
  intro h
  rw [show ccClientCounts (runSent [] 10 ⟨[], []⟩ queueC3) = [1, 1, 1] from rfl] at h
  simp at h

/-- C3 amended: starting from an empty app, processing [AddClient(c1),
AddClient(c2), RemoveClient(c1)] with the self-enqueued follow-ups in FIFO
order yields final client registry {c2} and exactly three ConnectionCounts
broadcasts, all delivered to c2's channel, whose observed client counts are
1, 1, 1 — each reflecting the registry state at the moment the self-enqueued
SendConnectionCounts command itself is processed, which is after all three
mutations since self-enqueued commands go to the back of the queue. -/
theorem ordering_counts_amended (c1 c2 t1 t2 : Nat) (h : c1 ≠ c2) :
    runClients [] 10 ⟨[], []⟩
        [AppMessage.addClient c1 t1, AppMessage.addClient c2 t2, AppMessage.removeClient c1] =
      [(c2, t2)] ∧
    runSent [] 10 ⟨[], []⟩
        [AppMessage.addClient c1 t1, AppMessage.addClient c2 t2, AppMessage.removeClient c1] =
      [(t2, BackendMessage.connectionCounts 1 0), (t2, BackendMessage.connectionCounts 1 0),
        (t2, BackendMessage.connectionCounts 1 0)] := by
  constructor
  · simp [runClients, run, handle, insertA, removeA, sendAll, App.totalPlayers, h, Ne.symm h]
  · simp [runSent, run, handle, insertA, removeA, sendAll, App.totalPlayers, h, Ne.symm h]

/-- C3 amended, witness: the concrete instance with c1 = 1, c2 = 2. -/
theorem ordering_counts_amended_witness :
    runClients [] 10 ⟨[], []⟩
        [AppMessage.addClient 1 101, AppMessage.addClient 2 102, AppMessage.removeClient 1] =
      [(2, 102)] ∧
    runSent [] 10 ⟨[], []⟩
        [AppMessage.addClient 1 101, AppMessage.addClient 2 102, AppMessage.removeClient 1] =
      [(102, BackendMessage.connectionCounts 1 0), (102, BackendMessage.connectionCounts 1 0),
        (102, BackendMessage.connectionCounts 1 0)] :=
  ordering_counts_amended 1 2 101 102 (by decide)

/-- C4: processing SendConnectionCounts, with every registered client channel
open, sends to every client in the registry exactly one ConnectionCounts
notification whose client count is the registry size and whose player count is
the sum over all lobbies of that lobby's player-mapping size, both read at the
moment the command is processed; no state change, no follow-up command. -/
theorem sendConnectionCounts_broadcast (closed : List Nat) (app : App)
    (hopen : ∀ c ∈ app.clients, c.2 ∉ closed) :
    handle closed app AppMessage.sendConnectionCounts =
      ⟨app, [],
        app.clients.map (fun c =>
          (c.2, BackendMessage.connectionCounts app.clients.length (App.totalPlayers app))),
        [], true⟩ := by
  have h2 : ∀ ch ∈ app.clients.map (fun c => c.2), ch ∉ closed := by
    intro ch hch
    rcases List.mem_map.mp hch with ⟨c, hc, rfl⟩
    exact hopen c hc
  simp [handle, sendAll_all_open closed _ _ h2, List.map_map, Function.comp]

/-- C4 witness: the concrete app with one client (channel 107) and one lobby
holding one player; the broadcast carries counts 1 and 1. -/
theorem sendConnectionCounts_broadcast_witness :
    handle [] appW AppMessage.sendConnectionCounts =
      ⟨appW, [], [(107, BackendMessage.connectionCounts 1 1)], [], true⟩ :=
  sendConnectionCounts_broadcast [] appW (by decide)

/-- C5: AddClient inserts the pair into the client registry and self-enqueues
SendConnectionCounts; RemoveClient deletes the id and likewise self-enqueues;
neither emits any notification while being processed, and in the actor loop
the self-enqueued command goes to the back of the queue (after the already
queued commands), with the delivery trace of the triggering step empty. -/
theorem addRemoveClient_self_enqueue (closed : List Nat) (app : App) (id tx : Nat) :
    handle closed app (AppMessage.addClient id tx) =
      ⟨⟨insertA id tx app.clients, app.lobbies⟩, [AppMessage.sendConnectionCounts], [],
        ["Added client with ID " ++ toString id ++ ". Client count is " ++
          toString (insertA id tx app.clients).length ++ "."], true⟩ ∧
    handle closed app (AppMessage.removeClient id) =
      ⟨⟨removeA id app.clients, app.lobbies⟩, [AppMessage.sendConnectionCounts], [],
        ["Removed client with ID " ++ toString id ++ ". Client count is " ++
          toString (removeA id app.clients).length ++ "."], true⟩ ∧
    (∀ fuel rest, run closed (fuel + 1) app (AppMessage.addClient id tx :: rest) =
      match run closed fuel ⟨insertA id tx app.clients, app.lobbies⟩
          (rest ++ [AppMessage.sendConnectionCounts]) with
      | none => none
      | some (b, a, s, l) =>
        some (b, a, s, ("Added client with ID " ++ toString id ++ ". Client count is " ++
          toString (insertA id tx app.clients).length ++ ".") :: l)) ∧
    (∀ fuel rest, run closed (fuel + 1) app (AppMessage.removeClient id :: rest) =
      match run closed fuel ⟨removeA id app.clients, app.lobbies⟩
          (rest ++ [AppMessage.sendConnectionCounts]) with
      | none => none
      | some (b, a, s, l) =>
        some (b, a, s, ("Removed client with ID " ++ toString id ++ ". Client count is " ++
          toString (removeA id app.clients).length ++ ".") :: l)) :=
  ⟨rfl, rfl, fun _ _ => rfl, fun _ _ => rfl⟩

/-- C5 witness: the first conjunct at a concrete input. -/
theorem addRemoveClient_self_enqueue_witness :
    handle [] appOne (AppMessage.addClient 2 102) =
      ⟨⟨insertA 2 102 appOne.clients, appOne.lobbies⟩, [AppMessage.sendConnectionCounts], [],
        ["Added client with ID " ++ toString 2 ++ ". Client count is " ++
          toString (insertA 2 102 appOne.clients).length ++ "."], true⟩ :=
  (addRemoveClient_self_enqueue [] appOne 2 102).1

/-- C6 counterexample: with channel 101 closed, the loop terminates although
the queue is not drained (the second command is left unprocessed), and it
terminates with an error (the `Err` return of `handle_app_message`), not a
natural success shutdown. -/
theorem natural_shutdown_counterexample :
    run [101] 5 appOne [AppMessage.sendConnectionCounts, AppMessage.sendConnectionCounts] =
      some (false, appOne, [], []) :=
  rfl

/-- C6 amended: as long as no outbound channel is closed, the actor loop can
only terminate by draining the queue, returning success (`Ok(())`); a send
failure on a closed outbound channel is the one way it terminates with an
error instead. -/
theorem run_success_when_no_closed_channel (fuel : Nat) :
    ∀ (app : App) (q : List AppMessage)
      (r : Bool × App × List (Nat × BackendMessage) × List String),
      run [] fuel app q = some r → r.1 = true := by
  induction fuel with
  | zero =>
    intro app q r h
    simp [run] at h
  | succ n ih =>
    intro app q r h
    cases q with
    | nil =>
      have h0 : (true, app, ([] : List (Nat × BackendMessage)), ([] : List String)) = r :=
        Option.some.inj h
      rw [← h0]
    | cons msg rest =>
      have hok : (handle [] app msg).ok = true := handle_nil_ok app msg
      simp only [run, hok, if_true] at h
      cases hrec : run [] n (handle [] app msg).app (rest ++ (handle [] app msg).enq) with
      | none => rw [hrec] at h; cases h
      | some r' =>
        obtain ⟨b, a, s, l⟩ := r'
        rw [hrec] at h
        have hb : b = true := ih (handle [] app msg).app (rest ++ (handle [] app msg).enq)
          (b, a, s, l) hrec
        have h1 : (b, a, (handle [] app msg).sent ++ s, (handle [] app msg).logs ++ l) = r :=
          Option.some.inj h
        rw [← h1]
        exact hb

/-- C6 amended, witness: a concrete drained run, returning success. -/
theorem run_success_when_no_closed_channel_witness :
    run [] 2 appOne [AppMessage.sendConnectionCounts] =
      some (true, appOne, [(101, BackendMessage.connectionCounts 1 0)], []) ∧
    ((true, appOne, [(101, BackendMessage.connectionCounts 1 0)], ([] : List String)) :
      Bool × App × List (Nat × BackendMessage) × List String).1 = true :=
  ⟨rfl, run_success_when_no_closed_channel 2 appOne [AppMessage.sendConnectionCounts]
    (true, appOne, [(101, BackendMessage.connectionCounts 1 0)], []) rfl⟩

/-- C7: for a player p that is a member of exactly one lobby L (with all of
L's member channels open), SendMessage(p, text) locates L by the linear scan
over all lobbies' memberships and delivers the chat notification to every
member of L — the delivery trace is exactly one notification per member of L,
so no channel outside L receives anything. -/
theorem chat_broadcast_scoped (closed : List Nat) (app : App) (lid : Nat) (L : Lobby)
    (p : Player) (text : String)
    (hmem : (lid, L) ∈ app.lobbies)
    (hp : containsA p.id L.players = true)
    (huniq : ∀ e ∈ app.lobbies, containsA p.id e.2.players = true → e = (lid, L))
    (hopen : ∀ q ∈ L.players, q.2.tx ∉ closed) :
    handle closed app (AppMessage.sendMessage p text) =
      ⟨app, [],
        L.players.map (fun q => (q.2.tx, BackendMessage.chatMessage p.id p.name text)),
        [], true⟩ := by
  have hfind : app.lobbies.find? (fun e => containsA p.id e.2.players) = some (lid, L) :=
    find?_eq_of_unique _ _ _ hmem hp huniq
  have hopen' : ∀ c ∈ L.players.map (fun q => q.2.tx), c ∉ closed := by
    intro c hc
    rcases List.mem_map.mp hc with ⟨q, hq, rfl⟩
    exact hopen q hq
  have hsend := sendAll_all_open closed (BackendMessage.chatMessage p.id p.name text)
    (L.players.map (fun q => q.2.tx)) hopen'
  simp [handle, hfind, Lobby.sendChatMessage, Lobby.memberChannels, hsend,
    List.map_map, Function.comp]

/-- C7 witness: player ten is a member of exactly lobby 5; the chat
notification goes exactly to channel 110. -/
theorem chat_broadcast_scoped_witness :
    handle [] appW (AppMessage.sendMessage playerTen "hi") =
      ⟨appW, [],
        lobbyW.players.map (fun q => (q.2.tx, BackendMessage.chatMessage 10 "ten" "hi")),
        [], true⟩ :=
  chat_broadcast_scoped [] appW 5 lobbyW playerTen "hi"
    (by decide) (by decide) (by decide) (by decide)

/-- C8: when the editor child process exits, for any exit status, the manager
(with the lobby channel still open) sends exactly one EditorTerminated
notification to the owning session's control channel, and no action of the
manager spawns a replacement process — it performs no restart. -/
theorem editor_termination_single_notification (status : ExitStatus) :
    handle_termination false (Except.ok status) =
      ([EditorAction.sendLobby LobbyMessage.editorTerminated],
        ["The editor process terminated."], true) ∧
    (handle_termination false (Except.ok status)).1.count
      (EditorAction.sendLobby LobbyMessage.editorTerminated) = 1 ∧
    EditorAction.spawnEditor ∉ (handle_termination false (Except.ok status)).1 := by
  refine ⟨rfl, ?_, ?_⟩
  · rfl
  · simp [handle_termination]

/-- C8 witness: the concrete exit status 0. -/
theorem editor_termination_single_notification_witness :
    handle_termination false (Except.ok ⟨0⟩) =
      ([EditorAction.sendLobby LobbyMessage.editorTerminated],
        ["The editor process terminated."], true) :=
  (editor_termination_single_notification ⟨0⟩).1

/-- C9: AddClient with an id already present in the client registry silently
replaces the stored channel handle: the registry size is unchanged, the new
channel is the one stored, no error is raised, and SendConnectionCounts is
still self-enqueued. -/
theorem addClient_existing_replaces (closed : List Nat) (app : App) (id tx : Nat)
    (h : containsA id app.clients = true) :
    (handle closed app (AppMessage.addClient id tx)).app.clients.length =
      app.clients.length ∧
    lookupA id (handle closed app (AppMessage.addClient id tx)).app.clients = some tx ∧
    (handle closed app (AppMessage.addClient id tx)).enq =
      [AppMessage.sendConnectionCounts] ∧
    (handle closed app (AppMessage.addClient id tx)).sent = [] ∧
    (handle closed app (AppMessage.addClient id tx)).ok = true :=
  ⟨insertA_length id tx app.clients h, lookupA_insertA id tx app.clients, rfl, rfl, rfl⟩

/-- C9 witness: re-adding client 1 with the new channel 999. -/
theorem addClient_existing_replaces_witness :
    (handle [] appTwo (AppMessage.addClient 1 999)).app.clients.length =
      appTwo.clients.length ∧
    lookupA 1 (handle [] appTwo (AppMessage.addClient 1 999)).app.clients = some 999 ∧
    (handle [] appTwo (AppMessage.addClient 1 999)).enq =
      [AppMessage.sendConnectionCounts] ∧
    (handle [] appTwo (AppMessage.addClient 1 999)).sent = [] ∧
    (handle [] appTwo (AppMessage.addClient 1 999)).ok = true :=
  addClient_existing_replaces [] appTwo 1 999 (by decide)

/-- C10: RemoveClient with an id not present in the client registry leaves the
whole state (registry and lobbies) unchanged, sends nothing, succeeds — and
still self-enqueues SendConnectionCounts, so a ConnectionCounts broadcast is
triggered even though no state was mutated. -/
theorem removeClient_absent (closed : List Nat) (app : App) (id : Nat)
    (h : containsA id app.clients = false) :
    (handle closed app (AppMessage.removeClient id)).app = app ∧
    (handle closed app (AppMessage.removeClient id)).enq =
      [AppMessage.sendConnectionCounts] ∧
    (handle closed app (AppMessage.removeClient id)).sent = [] ∧
    (handle closed app (AppMessage.removeClient id)).ok = true := by
  constructor
  · show App.mk (removeA id app.clients) app.lobbies = app
    rw [removeA_not_mem id app.clients h]
  · exact ⟨rfl, rfl, rfl⟩

/-- C10 witness: removing the unknown client 3. -/
theorem removeClient_absent_witness :
    (handle [] appTwo (AppMessage.removeClient 3)).app = appTwo ∧
    (handle [] appTwo (AppMessage.removeClient 3)).enq =
      [AppMessage.sendConnectionCounts] ∧
    (handle [] appTwo (AppMessage.removeClient 3)).sent = [] ∧
    (handle [] appTwo (AppMessage.removeClient 3)).ok = true :=
  removeClient_absent [] appTwo 3 (by decide)

end KeyGlide
